import Mathlib

/-!
Verification of the sensor-acquisition core of the IoT-Systems repository.

Part 1 embeds the UART frame synchronizer and sample decoder of
`src/agent/uart-saver/UARTReader.py`.  Part 2 embeds the CSV replay
datasource of `src/agent/src/file_datasource.py`.

Mutable instance state becomes explicit state records, the `read_next`
while-loop becomes a fold over the incoming byte list, Python exceptions
become `Option`, and machine bytes are `Nat` (all comparisons in the
source are against literals, so no wrap-around arithmetic occurs).
-/

/-! ## Part 1: the UART reader (`UARTReader.py`) -/

/-- The mutable fields of `UARTReader`: `i` counts the running preamble
bytes, `d` indexes the payload buffer, `state` is the scanner mode
(`0` = seeking a preamble, `1` = collecting payload bytes, `2` =
frame complete, reset to `0` by `read_next` as soon as it is seen),
`data` is the 6-byte payload buffer. -/
structure UARTState where
  i : Nat
  d : Nat
  state : Nat
  data : List Nat
deriving DecidableEq

/-- The fields as initialised in `UARTReader.__init__`
(`i = 0`, `d = 0`, `state = 0`, `data = bytearray(6)`). -/
def initState : UARTState := ⟨0, 0, 0, List.replicate 6 0⟩

/-- `UARTReader.__frame_seek` (lines 29-39): count `0xFF` bytes; once at
least 10 have been seen, a non-`0xFF` byte becomes payload byte 0 and
the scanner switches to collecting mode. -/
def frame_seek (s : UARTState) (byte : Nat) : UARTState :=
  let s1 := if byte = 0xFF then { s with i := s.i + 1 } else s
  if 10 ≤ s1.i ∧ byte ≠ 0xFF then
    { s1 with i := 0, data := s1.data.set s1.d byte, d := 1, state := 1 }
  else s1

/-- `UARTReader.__data_read` (lines 41-48): store the byte in the next
payload slot; after the sixth slot the frame is complete. -/
def data_read (s : UARTState) (byte : Nat) : UARTState :=
  let s1 := { s with data := s.data.set s.d byte, d := s.d + 1 }
  if 6 ≤ s1.d then { s1 with d := 0, state := 2 } else s1

/-- One iteration of the `read_next` loop body (lines 58-68) on a single
byte: dispatch on the mode, and when a frame has just completed return
it (and drop back to seeking mode), else return nothing. -/
def processByte (s : UARTState) (byte : Nat) : UARTState × Option (List Nat) :=
  let s1 := if s.state = 0 then frame_seek s byte
            else if s.state = 1 then data_read s byte
            else s
  if s1.state = 2 then ({ s1 with state := 0 }, some s1.data) else (s1, none)

/-- Feed a whole byte sequence one byte at a time (repeated `read_next`
calls), collecting every emitted frame in order. -/
def feed (s : UARTState) : List Nat → UARTState × List (List Nat)
  | [] => (s, [])
  | b :: bs =>
    let p := processByte s b
    let r := feed p.1 bs
    (r.1, p.2.toList ++ r.2)

/-- `UARTReader.__to_int` (lines 23-27): reinterpret an unsigned 16-bit
value as signed two's complement. -/
def to_int (x : Nat) : Int :=
  if 0x8000 ≤ x then (x : Int) - 0x10000 else (x : Int)

/-- The decoding performed by `read_next` on a completed frame
(lines 66-68): three little-endian 16-bit axes, each sign-extended. -/
def decodeSample (data : List Nat) : Int × Int × Int :=
  (to_int (data.getD 0 0 + (data.getD 1 0) <<< 8),
   to_int (data.getD 2 0 + (data.getD 3 0) <<< 8),
   to_int (data.getD 4 0 + (data.getD 5 0) <<< 8))

/-! ### Step lemmas for the synchronizer -/

theorem processByte_seek_ff (s : UARTState) (h : s.state = 0) :
    processByte s 255 = ({ s with i := s.i + 1 }, none) := by
  cases s
  simp_all [processByte, frame_seek]

theorem processByte_seek_lt (s : UARTState) (h : s.state = 0) (hi : s.i < 10)
    (b : Nat) (hb : b ≠ 255) :
    processByte s b = (s, none) := by
  cases s
  simp_all [processByte, frame_seek, Nat.not_le_of_lt hi]

theorem processByte_sync (s : UARTState) (h : s.state = 0) (hi : 10 ≤ s.i)
    (b : Nat) (hb : b ≠ 255) :
    processByte s b =
      ({ s with i := 0, data := s.data.set s.d b, d := 1, state := 1 }, none) := by
  cases s
  simp_all [processByte, frame_seek]

theorem processByte_collect (s : UARTState) (h : s.state = 1) (hd : s.d + 1 < 6)
    (b : Nat) :
    processByte s b = ({ s with data := s.data.set s.d b, d := s.d + 1 }, none) := by
  cases s
  simp_all [processByte, data_read, Nat.not_le_of_lt hd]

theorem processByte_complete (s : UARTState) (h : s.state = 1) (hd : s.d = 5)
    (b : Nat) :
    processByte s b =
      ({ s with data := s.data.set 5 b, d := 0, state := 0 }, some (s.data.set 5 b)) := by
  cases s
  simp_all [processByte, data_read]

theorem feed_cons (s : UARTState) (b : Nat) (bs : List Nat) :
    feed s (b :: bs) =
      ((feed (processByte s b).1 bs).1,
        (processByte s b).2.toList ++ (feed (processByte s b).1 bs).2) := rfl

theorem feed_append (s : UARTState) (xs ys : List Nat) :
    feed s (xs ++ ys) =
      ((feed (feed s xs).1 ys).1, (feed s xs).2 ++ (feed (feed s xs).1 ys).2) := by
  induction xs generalizing s with
  | nil => simp [feed]
  | cons b bs ih => simp [feed, ih]

/-- A run of `0xFF` bytes in seeking mode only grows the counter and
emits nothing. -/
theorem feed_preamble (s : UARTState) (h : s.state = 0) (k : Nat) :
    feed s (List.replicate k 255) = ({ s with i := s.i + k }, []) := by
  induction k generalizing s with
  | zero => cases s; simp [feed]
  | succ n ih =>
    rw [List.replicate_succ, feed_cons, processByte_seek_ff s h]
    dsimp only
    rw [ih { s with i := s.i + 1 } h]
    cases s
    simp [Nat.add_assoc, Nat.add_comm 1 n]

/-- Helper: a list of length 6 is an explicit 6-tuple. -/
theorem list_len6 (l : List Nat) (h : l.length = 6) :
    ∃ a0 a1 a2 a3 a4 a5, l = [a0, a1, a2, a3, a4, a5] := by
  obtain ⟨b0, l0, rfl⟩ := List.exists_of_length_succ l h
  obtain ⟨b1, l1, rfl⟩ := List.exists_of_length_succ l0 (show l0.length = 4 + 1 by simpa using h)
  obtain ⟨b2, l2, rfl⟩ := List.exists_of_length_succ l1 (show l1.length = 3 + 1 by simpa using h)
  obtain ⟨b3, l3, rfl⟩ := List.exists_of_length_succ l2 (show l2.length = 2 + 1 by simpa using h)
  obtain ⟨b4, l4, rfl⟩ := List.exists_of_length_succ l3 (show l3.length = 1 + 1 by simpa using h)
  obtain ⟨b5, l5, rfl⟩ := List.exists_of_length_succ l4 (show l4.length = 0 + 1 by simpa using h)
  obtain rfl : l5 = [] := by simpa using h
  exact ⟨b0, b1, b2, b3, b4, b5, rfl⟩

/-- Once synchronized (counter at 10 or beyond, buffer index 0), six
payload bytes whose first is not `0xFF` produce exactly that frame and
return the machine to seeking mode. -/
theorem feed_payload (s : UARTState) (h : s.state = 0) (hd : s.d = 0)
    (hi : 10 ≤ s.i) (hlen : s.data.length = 6)
    (p0 p1 p2 p3 p4 p5 : Nat) (hp : p0 ≠ 255) :
    feed s [p0, p1, p2, p3, p4, p5] =
      (⟨0, 0, 0, [p0, p1, p2, p3, p4, p5]⟩, [[p0, p1, p2, p3, p4, p5]]) := by
  obtain ⟨a0, a1, a2, a3, a4, a5, hdata⟩ := list_len6 s.data hlen
  obtain ⟨i, d, st, data⟩ := s
  simp only at h hd hi hdata
  subst h hd hdata
  have e0 : processByte ⟨i, 0, 0, [a0, a1, a2, a3, a4, a5]⟩ p0
      = (⟨0, 1, 1, [p0, a1, a2, a3, a4, a5]⟩, none) := by
    rw [processByte_sync _ rfl hi _ hp]; rfl
  have e1 : processByte ⟨0, 1, 1, [p0, a1, a2, a3, a4, a5]⟩ p1
      = (⟨0, 2, 1, [p0, p1, a2, a3, a4, a5]⟩, none) := by
    rw [processByte_collect ⟨0, 1, 1, [p0, a1, a2, a3, a4, a5]⟩ rfl (by norm_num) p1]; rfl
  have e2 : processByte ⟨0, 2, 1, [p0, p1, a2, a3, a4, a5]⟩ p2
      = (⟨0, 3, 1, [p0, p1, p2, a3, a4, a5]⟩, none) := by
    rw [processByte_collect ⟨0, 2, 1, [p0, p1, a2, a3, a4, a5]⟩ rfl (by norm_num) p2]; rfl
  have e3 : processByte ⟨0, 3, 1, [p0, p1, p2, a3, a4, a5]⟩ p3
      = (⟨0, 4, 1, [p0, p1, p2, p3, a4, a5]⟩, none) := by
    rw [processByte_collect ⟨0, 3, 1, [p0, p1, p2, a3, a4, a5]⟩ rfl (by norm_num) p3]; rfl
  have e4 : processByte ⟨0, 4, 1, [p0, p1, p2, p3, a4, a5]⟩ p4
      = (⟨0, 5, 1, [p0, p1, p2, p3, p4, a5]⟩, none) := by
    rw [processByte_collect ⟨0, 4, 1, [p0, p1, p2, p3, a4, a5]⟩ rfl (by norm_num) p4]; rfl
  have e5 : processByte ⟨0, 5, 1, [p0, p1, p2, p3, p4, a5]⟩ p5
      = (⟨0, 0, 0, [p0, p1, p2, p3, p4, p5]⟩, some [p0, p1, p2, p3, p4, p5]) := by
    rw [processByte_complete _ rfl rfl _]; rfl
  simp [feed_cons, feed, e0, e1, e2, e3, e4, e5]

/-! ### Reachability invariant of the synchronizer -/

/-- States reachable from `initState`: the payload buffer always has 6
slots; the mode is seeking or collecting (mode 2 is transient inside
`read_next`); in seeking mode the buffer index is 0; in collecting mode
the index is between 1 and 5 and slot 0 holds the non-`0xFF` byte that
ended the preamble. -/
def ReachInv (s : UARTState) : Prop :=
  s.data.length = 6 ∧
  (s.state = 0 ∨ s.state = 1) ∧
  (s.state = 0 → s.d = 0) ∧
  (s.state = 1 → 1 ≤ s.d ∧ s.d ≤ 5 ∧ s.data.head? ≠ some 255)

theorem init_inv : ReachInv initState := by
  simp [ReachInv, initState]

theorem head?_set_of_pos (l : List Nat) (n : Nat) (hn : 1 ≤ n) (b : Nat) :
    (l.set n b).head? = l.head? := by
  cases l with
  | nil => simp
  | cons a t =>
    cases n with
    | zero => omega
    | succ m => simp

theorem processByte_inv (s : UARTState) (hs : ReachInv s) (b : Nat) :
    ReachInv (processByte s b).1 ∧
      ∀ f, (processByte s b).2 = some f → f.length = 6 ∧ f.head? ≠ some 255 := by
  obtain ⟨hlen, hmode, hd0, hcol⟩ := hs
  rcases hmode with h0 | h1
  · by_cases hb : b = 255
    · subst hb
      rw [processByte_seek_ff s h0]
      dsimp only [ReachInv]
      refine ⟨⟨hlen, Or.inl h0, fun _ => hd0 h0, ?_⟩, by simp⟩
      intro h; rw [h0] at h; omega
    · by_cases hi : 10 ≤ s.i
      · rw [processByte_sync s h0 hi b hb]
        dsimp only [ReachInv]
        refine ⟨⟨?_, Or.inr rfl, by omega, ?_⟩, by simp⟩
        · simpa using hlen
        · intro _
          refine ⟨le_refl 1, by omega, ?_⟩
          rw [hd0 h0]
          obtain ⟨a0, a1, a2, a3, a4, a5, hd⟩ := list_len6 s.data hlen
          rw [hd]
          simpa using hb
      · rw [processByte_seek_lt s h0 (by omega) b hb]
        exact ⟨⟨hlen, Or.inl h0, fun _ => hd0 h0, hcol⟩, by simp⟩
  · obtain ⟨hd1, hd5, hh⟩ := hcol h1
    by_cases hd : s.d = 5
    · rw [processByte_complete s h1 hd b]
      dsimp only [ReachInv]
      constructor
      · refine ⟨by simpa using hlen, Or.inl rfl, fun _ => rfl, ?_⟩
        intro h; omega
      · intro f hf
        simp only [Option.some.injEq] at hf
        subst hf
        refine ⟨by simpa using hlen, ?_⟩
        rw [head?_set_of_pos s.data 5 (by omega) b]
        exact hh
    · rw [processByte_collect s h1 (by omega) b]
      dsimp only [ReachInv]
      constructor
      · refine ⟨by simpa using hlen, Or.inr h1, ?_, ?_⟩
        · intro h0c; rw [h1] at h0c; omega
        · intro _
          refine ⟨by omega, by omega, ?_⟩
          rw [head?_set_of_pos s.data s.d hd1 b]
          exact hh
      · simp

theorem feed_inv (s : UARTState) (hs : ReachInv s) (bs : List Nat) :
    ReachInv (feed s bs).1 ∧
      ∀ f ∈ (feed s bs).2, f.length = 6 ∧ f.head? ≠ some 255 := by
  induction bs generalizing s with
  | nil => exact ⟨hs, by simp [feed]⟩
  | cons b bs ih =>
    obtain ⟨hstep, hem⟩ := processByte_inv s hs b
    obtain ⟨hrest, hfr⟩ := ih (processByte s b).1 hstep
    rw [feed_cons]
    refine ⟨hrest, ?_⟩
    intro f hf
    rw [List.mem_append] at hf
    rcases hf with hf | hf
    · rcases ho : (processByte s b).2 with _ | g
      · rw [ho] at hf; simp at hf
      · rw [ho] at hf
        simp only [Option.toList_some, List.mem_singleton] at hf
        subst hf
        exact hem f ho
    · exact hfr f hf

/-! ### Claims about the UART reader -/

/-- C1: from the initial state, any leading noise that never completes a
sync (no frame emitted, scanner still seeking), followed by a run of at
least 10 `0xFF` bytes, followed by 6 bytes whose first is not `0xFF`,
emits exactly one frame, equal to those 6 bytes. -/
theorem sync_one_frame (noise : List Nat) (k p0 p1 p2 p3 p4 p5 : Nat)
    (hnf : (feed initState noise).2 = [])
    (hns : (feed initState noise).1.state = 0)
    (hk : 10 ≤ k) (hp : p0 ≠ 255) :
    (feed initState (noise ++ List.replicate k 255 ++ [p0, p1, p2, p3, p4, p5])).2
      = [[p0, p1, p2, p3, p4, p5]] := by
  obtain ⟨⟨hlen, hmode, hd0, hcol⟩, hframes⟩ := feed_inv initState init_inv noise
  rw [List.append_assoc, feed_append, hnf]
  rw [feed_append]
  rw [feed_preamble (feed initState noise).1 hns k]
  dsimp only
  rw [feed_payload { (feed initState noise).1 with i := (feed initState noise).1.i + k }
        hns (hd0 hns) (le_trans hk (Nat.le_add_left k _)) (by simpa using hlen)
        p0 p1 p2 p3 p4 p5 hp]
  simp

theorem sync_one_frame_witness :
    (feed initState ([1, 255, 2] ++ List.replicate 10 255 ++ [3, 4, 5, 6, 7, 8])).2
      = [[3, 4, 5, 6, 7, 8]] :=
  sync_one_frame [1, 255, 2] 10 3 4 5 6 7 8 (by decide) (by decide) (by decide) (by decide)

/-- Helper for C2: `__to_int` returns the unique signed-16-bit
representative of its argument modulo 2^16. -/
theorem to_int_signed16 (u : Nat) (hu : u < 65536) :
    -32768 ≤ to_int u ∧ to_int u ≤ 32767 ∧ to_int u % 65536 = (u : Int) % 65536 := by
  unfold to_int
  split <;> constructor <;> omega

/-- C2: the decoder maps a 6-byte payload to three axes, each the
little-endian 16-bit pair reinterpreted as signed two's complement:
each axis lies in [-32768, 32767] and is congruent to the unsigned
little-endian value modulo 2^16.  (The decoder is a total function, so
decoding never fails for any 6-byte input.) -/
theorem decoder_signed (b0 b1 b2 b3 b4 b5 : Nat)
    (h0 : b0 < 256) (h1 : b1 < 256) (h2 : b2 < 256) (h3 : b3 < 256)
    (h4 : b4 < 256) (h5 : b5 < 256) :
    (-32768 ≤ (decodeSample [b0, b1, b2, b3, b4, b5]).1 ∧
      (decodeSample [b0, b1, b2, b3, b4, b5]).1 ≤ 32767 ∧
      (decodeSample [b0, b1, b2, b3, b4, b5]).1 % 65536
        = ((b0 + 256 * b1 : Nat) : Int) % 65536) ∧
    (-32768 ≤ (decodeSample [b0, b1, b2, b3, b4, b5]).2.1 ∧
      (decodeSample [b0, b1, b2, b3, b4, b5]).2.1 ≤ 32767 ∧
      (decodeSample [b0, b1, b2, b3, b4, b5]).2.1 % 65536
        = ((b2 + 256 * b3 : Nat) : Int) % 65536) ∧
    (-32768 ≤ (decodeSample [b0, b1, b2, b3, b4, b5]).2.2 ∧
      (decodeSample [b0, b1, b2, b3, b4, b5]).2.2 ≤ 32767 ∧
      (decodeSample [b0, b1, b2, b3, b4, b5]).2.2 % 65536
        = ((b4 + 256 * b5 : Nat) : Int) % 65536) := by
  have e : decodeSample [b0, b1, b2, b3, b4, b5]
      = (to_int (b0 + 256 * b1), to_int (b2 + 256 * b3), to_int (b4 + 256 * b5)) := by
    simp only [decodeSample, List.getD_cons_zero, List.getD_cons_succ, Nat.shiftLeft_eq]
    norm_num [Nat.mul_comm]
  rw [e]
  exact ⟨to_int_signed16 _ (by omega), to_int_signed16 _ (by omega),
    to_int_signed16 _ (by omega)⟩

theorem decoder_signed_witness :
    decodeSample [1, 0, 255, 127, 0, 128] = (1, 32767, -32768) ∧
    (decodeSample [1, 0, 255, 127, 0, 128]).2.2 % 65536
      = ((0 + 256 * 128 : Nat) : Int) % 65536 :=
  ⟨by decide,
    (decoder_signed 1 0 255 127 0 128 (by decide) (by decide) (by decide) (by decide)
        (by decide) (by decide)).2.2.2.2⟩

/-- C3: in seeking mode with the preamble counter below 10, a
non-`0xFF` byte changes nothing at all, and a `0xFF` byte increments
the counter by exactly 1 (and nothing else). -/
theorem seek_below_threshold (s : UARTState) (b : Nat)
    (hs : s.state = 0) (hi : s.i < 10) :
    (b ≠ 255 → processByte s b = (s, none)) ∧
    (b = 255 → processByte s b = ({ s with i := s.i + 1 }, none)) := by
  constructor
  · exact fun hb => processByte_seek_lt s hs hi b hb
  · intro hb; subst hb; exact processByte_seek_ff s hs

theorem seek_below_threshold_witness :
    processByte ⟨3, 0, 0, List.replicate 6 0⟩ 7 = (⟨3, 0, 0, List.replicate 6 0⟩, none) ∧
    processByte ⟨3, 0, 0, List.replicate 6 0⟩ 255 = (⟨4, 0, 0, List.replicate 6 0⟩, none) :=
  ⟨(seek_below_threshold ⟨3, 0, 0, List.replicate 6 0⟩ 7 rfl (by decide)).1 (by decide),
    (seek_below_threshold ⟨3, 0, 0, List.replicate 6 0⟩ 255 rfl (by decide)).2 rfl⟩

/-- C9: every frame the synchronizer ever emits from the initial state
has exactly 6 bytes and its first byte is never `0xFF` (it is the
non-`0xFF` byte that ended the preamble); later payload bytes are
unconstrained. -/
theorem frame_head_not_ff (bs : List Nat) (f : List Nat)
    (hf : f ∈ (feed initState bs).2) :
    f.length = 6 ∧ f.head? ≠ some 255 :=
  (feed_inv initState init_inv bs).2 f hf

theorem frame_head_not_ff_witness :
    ([7, 255, 255, 255, 255, 255] ∈
        (feed initState (List.replicate 10 255 ++ [7, 255, 255, 255, 255, 255])).2) ∧
    ([7, 255, 255, 255, 255, 255] : List Nat).length = 6 ∧
    ([7, 255, 255, 255, 255, 255] : List Nat).head? ≠ some 255 ∧
    ([7, 255, 255, 255, 255, 255] : List Nat).getD 1 0 = 255 :=
  ⟨by decide,
    (frame_head_not_ff (List.replicate 10 255 ++ [7, 255, 255, 255, 255, 255])
      [7, 255, 255, 255, 255, 255] (by decide)).1,
    (frame_head_not_ff (List.replicate 10 255 ++ [7, 255, 255, 255, 255, 255])
      [7, 255, 255, 255, 255, 255] (by decide)).2, by decide⟩

/-! ## Part 2: the CSV replay datasource (`file_datasource.py`)

A CSV file is a list of rows, each a list of cell strings (the
`csv.reader` view).  File handles and `seek(0)` become: a cursor keeps
the full file contents plus the list of rows not yet consumed.  The
`while True` fetch loops take a fuel argument; `none` models
non-termination (possible only for files with no data rows). -/

/-- Python `str.strip()` on the character list: drop whitespace from
both ends. -/
def stripChars (l : List Char) : List Char :=
  ((l.dropWhile Char.isWhitespace).reverse.dropWhile Char.isWhitespace).reverse

/-- Python `str.strip()`. -/
def stripStr (s : String) : String := String.mk (stripChars s.toList)

/-- Python `str.lower()` (per-character, as for the ASCII cells used
here). -/
def lowerStr (s : String) : String := String.mk (s.toList.map Char.toLower)

/-- `[c.strip() for c in row]`. -/
def stripRow (r : List String) : List String := r.map stripStr

/-- `not row or not any(row)`: the row is empty or every cell is the
empty string. -/
def blankRow (r : List String) : Bool := r.isEmpty || r.all (fun c => c == "")

/-- The sign/digits split of a decimal literal.  Modelled from the
spec: `FileDatasource._is_number` calls Python `float(s)`, whose
implementation is not part of this repository; this models its
behaviour on optionally signed plain decimal literals (optional single
point, at least one digit, surrounding whitespace allowed), the only
shapes the CSV cells here take (exponent, `inf`/`nan` and underscore
forms are out of scope).  Returns (negative?, integer digits,
fractional digits). -/
def parseDec? (s : String) : Option (Bool × List Char × List Char) :=
  let t := stripChars s.toList
  let p : Bool × List Char :=
    match t with
    | '-' :: r => (true, r)
    | '+' :: r => (false, r)
    | r => (false, r)
  if p.2.all (fun c => c.isDigit || c == '.') && p.2.count '.' ≤ 1
      && p.2.any (fun c => c.isDigit) then
    some (p.1, p.2.takeWhile (fun c => c != '.'), (p.2.dropWhile (fun c => c != '.')).tail)
  else none

/-- `FileDatasource._is_number` (lines 219-225): does `float(s)`
succeed. -/
def is_number (s : String) : Bool := (parseDec? s).isSome

/-- Value of a digit list in base 10. -/
def digitsVal (l : List Char) : Nat := l.foldl (fun a c => a * 10 + (c.toNat - 48)) 0

/-- `int(float(s))` for a parsed decimal literal: truncation toward
zero drops the fractional digits. -/
def decInt (p : Bool × List Char × List Char) : Int :=
  (if p.1 then -1 else 1) * (digitsVal p.2.1 : Int)

/-- `float(s)` for a parsed decimal literal, as an exact rational:
`±(I.F)` is `±(I * 10^|F| + F) / 10^|F|`. -/
def decRat (p : Bool × List Char × List Char) : ℚ :=
  mkRat ((if p.1 then -1 else 1) *
      ((digitsVal p.2.1 * 10 ^ p.2.2.length + digitsVal p.2.2 : Nat) : Int))
    (10 ^ p.2.2.length)

/-- The skip-blank loop at the head of `_detect_header_and_buffer`
(lines 180-187): first non-blank row (cells stripped) and the rows
after it; `none` at end of file. -/
def firstNonBlank : List (List String) → Option (List String × List (List String))
  | [] => none
  | r :: rs =>
    let r1 := stripRow r
    if blankRow r1 then firstNonBlank rs else some (r1, rs)

/-- `FileDatasource._detect_header_and_buffer` (lines 175-200): the
three-way decision on the first non-blank row.  Returns (header
present?, buffered data row, rows left in the reader). -/
def detect_header_and_buffer (rows : List (List String)) (expectedCols : Nat)
    (headerTokens : List String) : Bool × Option (List String) × List (List String) :=
  match firstNonBlank rows with
  | none => (false, none, [])
  | some (first, rest) =>
    let norm := first.map lowerStr
    if headerTokens.all (fun tok => norm.contains tok) then (true, none, rest)
    else if decide (expectedCols ≤ norm.length)
        && (norm.take expectedCols).all is_number then (false, some first, rest)
    else (true, none, rest)

/-- Per-file cursor state (the spec's `TabularCursor`): full file
contents (for `seek(0)`), rows not yet consumed by the reader, the
one-row buffer, the header flag and the detection parameters. -/
structure Cursor where
  file : List (List String)
  remaining : List (List String)
  buf : Option (List String)
  hasHeader : Bool
  expectedCols : Nat
  headerTokens : List String
deriving DecidableEq

/-- Opening a file and running header detection (`_open_files`,
lines 77-94, one file). -/
def openCursor (file : List (List String)) (expectedCols : Nat)
    (headerTokens : List String) : Cursor :=
  let r := detect_header_and_buffer file expectedCols headerTokens
  { file := file, remaining := r.2.2, buf := r.2.1, hasHeader := r.1,
    expectedCols := expectedCols, headerTokens := headerTokens }

/-- `_rewind_acc` / `_rewind_gps` (lines 113-129): seek to the start
and re-run header detection on the same file. -/
def rewind (c : Cursor) : Cursor := openCursor c.file c.expectedCols c.headerTokens

/-- `_next_acc_row` / `_next_gps_row` (lines 131-173, identical up to
the cursor they act on): take the buffered row if present, else the
next reader row; on end of file rewind and continue; strip cells, skip
blank rows, return the first non-blank row.  One fuel unit per loop
iteration; `none` models the infinite loop on a file with no data. -/
def next_row : Nat → Cursor → Option (List String × Cursor)
  | 0, _ => none
  | fuel + 1, c =>
    match c.buf with
    | some row =>
      let c1 : Cursor := { c with buf := none }
      let row1 := stripRow row
      if blankRow row1 then next_row fuel c1 else some (row1, c1)
    | none =>
      match c.remaining with
      | [] => next_row fuel (rewind c)
      | r :: rs =>
        let c1 : Cursor := { c with remaining := rs }
        let row1 := stripRow r
        if blankRow row1 then next_row fuel c1 else some (row1, c1)

/-- Modelled from the spec: the `Accelerometer` record
(`domain/accelerometer.py` is imported by `file_datasource.py` but is
not under `src/`); the spec's `Sample` is three signed integers. -/
structure Accelerometer where
  x : Int
  y : Int
  z : Int
deriving DecidableEq

/-- Modelled from the spec: the `Gps` record (`domain/gps.py` is
imported by `file_datasource.py` but is not under `src/`); the spec's
`GeoPoint` is two floats, modelled as exact rationals. -/
structure Gps where
  longitude : ℚ
  latitude : ℚ
deriving DecidableEq

/-- The aggregated record exactly as constructed by
`FileDatasource.read` (lines 68-73): accelerometer + gps + the
`datetime.utcnow()` stamp + `config.USER_ID`.  Wall-clock time is
modelled as a counter that `time.sleep` advances.  (The separate
`agent/src/domain/aggregated_data.py` under `src/` is a later variant
of this record with an extra `parking` field and the stamp renamed
`timestamp`; the fields here follow the construction site in
`file_datasource.py` and the spec's `AggregatedReading`.) -/
structure AggregatedData where
  accelerometer : Accelerometer
  gps : Gps
  time : Nat
  user_id : Nat
deriving DecidableEq

/-- `FileDatasource._parse_acc` (lines 202-209): needs at least 3
cells, each of the first three parsed as `int(float(...))`; `none`
models the `ValueError`. -/
def parse_acc (row : List String) : Option Accelerometer :=
  if row.length < 3 then none
  else
    match parseDec? (row.getD 0 ""), parseDec? (row.getD 1 ""), parseDec? (row.getD 2 "") with
    | some a, some b, some c => some ⟨decInt a, decInt b, decInt c⟩
    | _, _, _ => none

/-- `FileDatasource._parse_gps` (lines 211-217): needs at least 2
cells, parsed as floats; `none` models the `ValueError`. -/
def parse_gps (row : List String) : Option Gps :=
  if row.length < 2 then none
  else
    match parseDec? (row.getD 0 ""), parseDec? (row.getD 1 "") with
    | some a, some b => some ⟨decRat a, decRat b⟩
    | _, _ => none

/-- The two cursors of a started `FileDatasource`. -/
structure DatasourceState where
  acc : Cursor
  gps : Cursor
deriving DecidableEq

/-- The outcome of one `FileDatasource.read()` call: a reading, or the `ValueError`
("MalformedRow") raised while parsing a fetched row. -/
inductive ReadResult where
  | ok (r : AggregatedData)
  | malformedRow
deriving DecidableEq

/-- The accelerometer header token set (line 90). -/
def accTokens : List String := ["x", "y", "z"]

/-- The GPS header token set (line 93). -/
def gpsTokens : List String := ["longitude", "latitude"]

/-- `startReading` + `_open_files` (lines 35-46, 77-94) on the two file
contents. -/
def startReading (accFile gpsFile : List (List String)) : DatasourceState :=
  ⟨openCursor accFile 3 accTokens, openCursor gpsFile 2 gpsTokens⟩

/-- `FileDatasource.read` (lines 53-73): fetch one accelerometer row,
then one GPS row, parse both, then sleep `config.DELAY` if positive,
then build the record with `datetime.utcnow()`.  `delay` is
`config.DELAY`, `clock` the wall clock on entry (so the stamp is
`clock + delay` when a positive delay is configured), `user_id` is
`config.USER_ID`. -/
def FileDatasource.read (delay clock user_id fuel : Nat) (s : DatasourceState) :
    Option (ReadResult × DatasourceState) :=
  match next_row fuel s.acc with
  | none => none
  | some (accRow, acc1) =>
    match next_row fuel s.gps with
    | none => none
    | some (gpsRow, gps1) =>
      match parse_acc accRow, parse_gps gpsRow with
      | some a, some g =>
        let clock1 := if 0 < delay then clock + delay else clock
        some (.ok ⟨a, g, clock1, user_id⟩, ⟨acc1, gps1⟩)
      | _, _ => some (.malformedRow, ⟨acc1, gps1⟩)

/-- The read operation as the spec sentence for C8 words it: the
reading (including its `utcnow` stamp) is assembled first and the
delay is applied only afterwards, before returning — so the stamp
would be the clock on entry.  Kept for comparison with `FileDatasource.read`. -/
def read_claimed (delay clock user_id fuel : Nat) (s : DatasourceState) :
    Option (ReadResult × DatasourceState) :=
  match next_row fuel s.acc with
  | none => none
  | some (accRow, acc1) =>
    match next_row fuel s.gps with
    | none => none
    | some (gpsRow, gps1) =>
      match parse_acc accRow, parse_gps gpsRow with
      | some a, some g => some (.ok ⟨a, g, clock, user_id⟩, ⟨acc1, gps1⟩)
      | _, _ => some (.malformedRow, ⟨acc1, gps1⟩)

/-- Iterated row fetches on one cursor: the k-th delivered row (0
indexed) and the cursor after it. -/
def iterDeliver (fuel : Nat) : Nat → Cursor → Option (List String × Cursor)
  | 0, c => next_row fuel c
  | k + 1, c =>
    match next_row fuel c with
    | none => none
    | some p => iterDeliver fuel k p.2

/-- Iterated `FileDatasource.read()` calls: the k-th call's outcome (0 indexed). -/
def readN (delay clock user_id fuel : Nat) :
    Nat → DatasourceState → Option (ReadResult × DatasourceState)
  | 0, s => FileDatasource.read delay clock user_id fuel s
  | k + 1, s =>
    match FileDatasource.read delay clock user_id fuel s with
    | none => none
    | some p => readN delay clock user_id fuel k p.2

/-! ### Parsing failure characterisations -/

theorem parse_acc_none_iff (row : List String) :
    parse_acc row = none ↔ row.length < 3 ∨ parseDec? (row.getD 0 "") = none
      ∨ parseDec? (row.getD 1 "") = none ∨ parseDec? (row.getD 2 "") = none := by
  unfold parse_acc
  by_cases hlen : row.length < 3
  · simp [hlen]
  · simp only [if_neg hlen]
    rcases parseDec? (row.getD 0 "") with _ | a <;>
      rcases parseDec? (row.getD 1 "") with _ | b <;>
      rcases parseDec? (row.getD 2 "") with _ | c <;> simp [hlen]

theorem parse_gps_none_iff (row : List String) :
    parse_gps row = none ↔ row.length < 2 ∨ parseDec? (row.getD 0 "") = none
      ∨ parseDec? (row.getD 1 "") = none := by
  unfold parse_gps
  by_cases hlen : row.length < 2
  · simp [hlen]
  · simp only [if_neg hlen]
    rcases parseDec? (row.getD 0 "") with _ | a <;>
      rcases parseDec? (row.getD 1 "") with _ | b <;> simp [hlen]

/-! ### Claims C4, C6, C7, C8, C10 -/

/-- C4: header detection is exactly the three-way decision on the first
non-blank row (cells stripped, then lowercased for the checks): all
expected tokens present means header (discarded); otherwise enough
columns and the first N normalized cells all numeric means data
(buffered); otherwise header-like (discarded).  A buffered row is
returned by the next fetch, so a headerless numeric first row is
returned by the first read call. -/
theorem header_three_way (rows rest : List (List String)) (first : List String)
    (cols : Nat) (toks : List String)
    (hfb : firstNonBlank rows = some (first, rest)) :
    ((∀ t ∈ toks, t ∈ first.map lowerStr) →
        detect_header_and_buffer rows cols toks = (true, none, rest)) ∧
    (¬ (∀ t ∈ toks, t ∈ first.map lowerStr) → cols ≤ first.length →
        ((first.map lowerStr).take cols).all is_number = true →
        detect_header_and_buffer rows cols toks = (false, some first, rest)) ∧
    (¬ (∀ t ∈ toks, t ∈ first.map lowerStr) →
        ¬ (cols ≤ first.length ∧ ((first.map lowerStr).take cols).all is_number = true) →
        detect_header_and_buffer rows cols toks = (true, none, rest)) ∧
    (∀ fuel c row, c.buf = some row → blankRow (stripRow row) = false →
        next_row (fuel + 1) c = some (stripRow row, { c with buf := none })) := by
  refine ⟨?_, ?_, ?_, ?_⟩
  · intro htok
    have hb1 : (toks.all fun tok => (first.map lowerStr).contains tok) = true := by
      rw [List.all_eq_true]
      intro t ht
      simpa using htok t ht
    simp only [detect_header_and_buffer, hfb, hb1]
    simp
  · intro htok hcols hnum
    have hb1 : (toks.all fun tok => (first.map lowerStr).contains tok) = false := by
      rw [Bool.eq_false_iff]
      intro hc
      rw [List.all_eq_true] at hc
      exact htok fun t ht => by simpa using hc t ht
    have hb2 : decide (cols ≤ (first.map lowerStr).length) = true := by
      simp [List.length_map, hcols]
    simp only [detect_header_and_buffer, hfb, hb1, hb2, hnum]
    simp
  · intro htok hrest
    have hb1 : (toks.all fun tok => (first.map lowerStr).contains tok) = false := by
      rw [Bool.eq_false_iff]
      intro hc
      rw [List.all_eq_true] at hc
      exact htok fun t ht => by simpa using hc t ht
    have hb2 : (decide (cols ≤ (first.map lowerStr).length)
        && ((first.map lowerStr).take cols).all is_number) = false := by
      rw [Bool.eq_false_iff]
      intro hc
      rw [Bool.and_eq_true, decide_eq_true_iff] at hc
      exact hrest ⟨by simpa [List.length_map] using hc.1, hc.2⟩
    simp only [detect_header_and_buffer, hfb, hb1, hb2]
    simp
  · intro fuel c row hbuf hnb
    rw [next_row, hbuf]
    simp [hnb]

theorem header_three_way_witness :
    (firstNonBlank [["1", "2", "3"]] = some (["1", "2", "3"], [])) ∧
    ¬ (∀ t ∈ accTokens, t ∈ (["1", "2", "3"] : List String).map lowerStr) ∧
    (detect_header_and_buffer [["1", "2", "3"]] 3 accTokens
      = (false, some ["1", "2", "3"], [])) ∧
    (next_row 1 ⟨[["1", "2", "3"]], [], some ["1", "2", "3"], false, 3, accTokens⟩
      = some (["1", "2", "3"], ⟨[["1", "2", "3"]], [], none, false, 3, accTokens⟩)) ∧
    ((FileDatasource.read 0 0 9 2 (startReading [["1", "2", "3"]] [["10", "20"]])).map Prod.fst
      = some (.ok ⟨⟨1, 2, 3⟩, ⟨mkRat 10 1, mkRat 20 1⟩, 0, 9⟩)) :=
  ⟨by decide, by decide,
    (header_three_way [["1", "2", "3"]] [] ["1", "2", "3"] 3 accTokens
      (by decide)).2.1 (by decide) (by decide) (by decide),
    (header_three_way [["1", "2", "3"]] [] ["1", "2", "3"] 3 accTokens
      (by decide)).2.2.2 0
      ⟨[["1", "2", "3"]], [], some ["1", "2", "3"], false, 3, accTokens⟩
      ["1", "2", "3"] rfl (by decide),
    by decide⟩

/-- C6: the row-fetching loop never returns a blank row (so a blank
line never becomes a data row, a reading or a MalformedRow failure),
and a blank row at the reader head is skipped: fetching continues on
the rows after it. -/
theorem blank_skipped :
    (∀ fuel c r c1, next_row fuel c = some (r, c1) → blankRow r = false) ∧
    (∀ fuel c b rs, c.buf = none → c.remaining = b :: rs →
        blankRow (stripRow b) = true →
        next_row (fuel + 1) c = next_row fuel { c with remaining := rs }) := by
  constructor
  · intro fuel
    induction fuel with
    | zero => intro c r c1 h; simp [next_row] at h
    | succ n ih =>
      intro c r c1 h
      rw [next_row] at h
      rcases hbuf : c.buf with _ | row
      · rw [hbuf] at h
        dsimp only at h
        rcases hrem : c.remaining with _ | ⟨rr, rs⟩
        · rw [hrem] at h
          dsimp only at h
          exact ih _ _ _ h
        · rw [hrem] at h
          dsimp only at h
          split at h
          · exact ih _ _ _ h
          · rename_i hb
            simp only [Option.some.injEq, Prod.mk.injEq] at h
            rw [← h.1]
            simpa using hb
      · rw [hbuf] at h
        dsimp only at h
        split at h
        · exact ih _ _ _ h
        · rename_i hb
          simp only [Option.some.injEq, Prod.mk.injEq] at h
          rw [← h.1]
          simpa using hb
  · intro fuel c b rs hbuf hrem hb
    rw [next_row, hbuf, hrem]
    simp [hb]

theorem blank_skipped_witness :
    (next_row 1 (openCursor [[""], ["1", "2", "3"]] 3 accTokens)
      = some (["1", "2", "3"], ⟨[[""], ["1", "2", "3"]], [], none, false, 3, accTokens⟩)) ∧
    blankRow ["1", "2", "3"] = false ∧
    next_row 2 ⟨[["1", "2", "3"]], [[""]], none, false, 3, accTokens⟩
      = next_row 1 ⟨[["1", "2", "3"]], [], none, false, 3, accTokens⟩ :=
  ⟨by decide,
    blank_skipped.1 1 (openCursor [[""], ["1", "2", "3"]] 3 accTokens) ["1", "2", "3"]
      ⟨[[""], ["1", "2", "3"]], [], none, false, 3, accTokens⟩ (by decide),
    blank_skipped.2 1 ⟨[["1", "2", "3"]], [[""]], none, false, 3, accTokens⟩ [""] []
      rfl rfl (by decide)⟩

/-- C7 (amended): a fetched row with too few columns or a non-numeric
required cell makes the current `FileDatasource.read()` call fail with MalformedRow,
and the call leaves both cursors advanced past the fetched rows; the
next call therefore proceeds on the rows at the advanced cursors.  (It
can meet the same bad row again only when the rewind wraps back to it,
e.g. when the bad row is the file's only data row — see the
counterexample.) -/
theorem malformed_aborts_call (delay clock uid fuel : Nat) (s : DatasourceState)
    (accRow gpsRow : List String) (acc1 gps1 : Cursor)
    (ha : next_row fuel s.acc = some (accRow, acc1))
    (hg : next_row fuel s.gps = some (gpsRow, gps1))
    (hbad : accRow.length < 3 ∨ parseDec? (accRow.getD 0 "") = none
      ∨ parseDec? (accRow.getD 1 "") = none ∨ parseDec? (accRow.getD 2 "") = none
      ∨ gpsRow.length < 2 ∨ parseDec? (gpsRow.getD 0 "") = none
      ∨ parseDec? (gpsRow.getD 1 "") = none) :
    FileDatasource.read delay clock uid fuel s = some (.malformedRow, ⟨acc1, gps1⟩) := by
  unfold FileDatasource.read
  rw [ha, hg]
  dsimp only
  have hpn : parse_acc accRow = none ∨ parse_gps gpsRow = none := by
    rcases hbad with h | h | h | h | h | h | h
    · exact Or.inl ((parse_acc_none_iff accRow).mpr (Or.inl h))
    · exact Or.inl ((parse_acc_none_iff accRow).mpr (Or.inr (Or.inl h)))
    · exact Or.inl ((parse_acc_none_iff accRow).mpr (Or.inr (Or.inr (Or.inl h))))
    · exact Or.inl ((parse_acc_none_iff accRow).mpr (Or.inr (Or.inr (Or.inr h))))
    · exact Or.inr ((parse_gps_none_iff gpsRow).mpr (Or.inl h))
    · exact Or.inr ((parse_gps_none_iff gpsRow).mpr (Or.inr (Or.inl h)))
    · exact Or.inr ((parse_gps_none_iff gpsRow).mpr (Or.inr (Or.inr h)))
  rcases hpn with h | h
  · rw [h]
  · rw [h]
    rcases parse_acc accRow with _ | a <;> rfl

theorem malformed_aborts_call_witness :
    (next_row 2 (startReading [["x", "y", "z"], ["a", "b", "c"]]
        [["longitude", "latitude"], ["1", "2"]]).acc
      = some (["a", "b", "c"],
          ⟨[["x", "y", "z"], ["a", "b", "c"]], [], none, true, 3, accTokens⟩)) ∧
    (next_row 2 (startReading [["x", "y", "z"], ["a", "b", "c"]]
        [["longitude", "latitude"], ["1", "2"]]).gps
      = some (["1", "2"],
          ⟨[["longitude", "latitude"], ["1", "2"]], [], none, true, 2, gpsTokens⟩)) ∧
    FileDatasource.read 0 0 0 2 (startReading [["x", "y", "z"], ["a", "b", "c"]]
        [["longitude", "latitude"], ["1", "2"]])
      = some (.malformedRow,
          ⟨⟨[["x", "y", "z"], ["a", "b", "c"]], [], none, true, 3, accTokens⟩,
           ⟨[["longitude", "latitude"], ["1", "2"]], [], none, true, 2, gpsTokens⟩⟩) :=
  ⟨by decide, by decide,
    malformed_aborts_call 0 0 0 2
      (startReading [["x", "y", "z"], ["a", "b", "c"]]
        [["longitude", "latitude"], ["1", "2"]])
      ["a", "b", "c"] ["1", "2"]
      ⟨[["x", "y", "z"], ["a", "b", "c"]], [], none, true, 3, accTokens⟩
      ⟨[["longitude", "latitude"], ["1", "2"]], [], none, true, 2, gpsTokens⟩
      (by decide) (by decide) (Or.inr (Or.inl (by decide)))⟩

/-- C7, counterexample to the claim as stated: with an accelerometer
file whose only data row is malformed (header row then `a,b,c`), the
first read call fails with MalformedRow, and the immediately following
read call fetches the very same bad row again (the rewind wrapped back
to it) and fails again — so the next call does re-encounter the same
bad row. -/
theorem malformed_reencounter_cex :
    ((FileDatasource.read 0 0 0 2 (startReading [["x", "y", "z"], ["a", "b", "c"]]
        [["longitude", "latitude"], ["1", "2"]])).map Prod.fst
      = some .malformedRow) ∧
    ((FileDatasource.read 0 0 0 2 (startReading [["x", "y", "z"], ["a", "b", "c"]]
        [["longitude", "latitude"], ["1", "2"]])).bind
        (fun p => (next_row 2 p.2.acc).map Prod.fst)
      = some ["a", "b", "c"]) ∧
    ((FileDatasource.read 0 0 0 2 (startReading [["x", "y", "z"], ["a", "b", "c"]]
        [["longitude", "latitude"], ["1", "2"]])).bind
        (fun p => (FileDatasource.read 0 0 0 2 p.2).map Prod.fst)
      = some .malformedRow) :=
  ⟨by decide, by decide, by decide⟩

/-- C8 (amended): a successful `FileDatasource.read()` advances both cursors by one
row, parses both rows, and — when a positive delay is configured —
applies the fixed delay after parsing and *before* assembling the
reading, so the `utcnow` stamp is taken after the delay (the stamp is
`clock + delay`, not the clock at entry). -/
theorem read_delay_before_stamp (delay clock uid fuel : Nat) (s : DatasourceState)
    (accRow gpsRow : List String) (acc1 gps1 : Cursor) (a : Accelerometer) (g : Gps)
    (ha : next_row fuel s.acc = some (accRow, acc1))
    (hg : next_row fuel s.gps = some (gpsRow, gps1))
    (hpa : parse_acc accRow = some a) (hpg : parse_gps gpsRow = some g) :
    FileDatasource.read delay clock uid fuel s
      = some (.ok ⟨a, g, if 0 < delay then clock + delay else clock, uid⟩,
          ⟨acc1, gps1⟩) := by
  unfold FileDatasource.read
  rw [ha, hg]
  dsimp only
  rw [hpa, hpg]

theorem read_delay_before_stamp_witness :
    FileDatasource.read 5 0 7 2 (startReading [["1", "2", "3"]] [["10", "20"]])
      = some (.ok ⟨⟨1, 2, 3⟩, ⟨mkRat 10 1, mkRat 20 1⟩,
            if 0 < 5 then 0 + 5 else 0, 7⟩,
          ⟨⟨[["1", "2", "3"]], [], none, false, 3, accTokens⟩,
           ⟨[["10", "20"]], [], none, false, 2, gpsTokens⟩⟩) :=
  read_delay_before_stamp 5 0 7 2 (startReading [["1", "2", "3"]] [["10", "20"]])
    ["1", "2", "3"] ["10", "20"]
    ⟨[["1", "2", "3"]], [], none, false, 3, accTokens⟩
    ⟨[["10", "20"]], [], none, false, 2, gpsTokens⟩
    ⟨1, 2, 3⟩ ⟨mkRat 10 1, mkRat 20 1⟩
    (by decide) (by decide) (by decide) (by decide)

/-- C8, counterexample to the claim as stated: with delay 5 and entry
clock 0, the code returns a reading stamped 5 (the sleep precedes
`datetime.utcnow()` and the record construction, lines 65-73), whereas
assembling the reading before the delay — the claim's order, modelled
by `read_claimed` — would stamp it 0. -/
theorem read_stamp_after_delay_cex :
    ((FileDatasource.read 5 0 7 2 (startReading [["1", "2", "3"]] [["10", "20"]])).map Prod.fst
      = some (.ok ⟨⟨1, 2, 3⟩, ⟨mkRat 10 1, mkRat 20 1⟩, 5, 7⟩)) ∧
    ((read_claimed 5 0 7 2 (startReading [["1", "2", "3"]] [["10", "20"]])).map Prod.fst
      = some (.ok ⟨⟨1, 2, 3⟩, ⟨mkRat 10 1, mkRat 20 1⟩, 0, 7⟩)) ∧
    (5 : Nat) ≠ 0 :=
  ⟨by decide, by decide, by decide⟩

/-- C10: `FileDatasource.read()` fetches the accelerometer row and then the GPS row —
advancing both cursors — before parsing either; consequently the
post-call state is the advanced pair of cursors whether or not parsing
succeeds, and when the accelerometer row is malformed the call returns
MalformedRow while the fetched GPS row has still been consumed. -/
theorem fetch_both_before_parse (delay clock uid fuel : Nat) (s : DatasourceState)
    (accRow gpsRow : List String) (acc1 gps1 : Cursor)
    (ha : next_row fuel s.acc = some (accRow, acc1))
    (hg : next_row fuel s.gps = some (gpsRow, gps1)) :
    ∃ res, FileDatasource.read delay clock uid fuel s = some (res, ⟨acc1, gps1⟩) ∧
      (parse_acc accRow = none → res = .malformedRow) := by
  unfold FileDatasource.read
  rw [ha, hg]
  dsimp only
  rcases hpa : parse_acc accRow with _ | a
  · rcases parse_gps gpsRow with _ | g
    · exact ⟨.malformedRow, rfl, fun _ => rfl⟩
    · exact ⟨.malformedRow, rfl, fun _ => rfl⟩
  · rcases parse_gps gpsRow with _ | g
    · exact ⟨.malformedRow, rfl, fun hc => Option.noConfusion hc⟩
    · exact ⟨.ok ⟨a, g, if 0 < delay then clock + delay else clock, uid⟩, rfl,
        fun hc => Option.noConfusion hc⟩

theorem fetch_both_before_parse_witness :
    (next_row 2 (startReading [["x", "y", "z"], ["a", "b", "c"]]
        [["longitude", "latitude"], ["1", "2"]]).acc
      = some (["a", "b", "c"],
          ⟨[["x", "y", "z"], ["a", "b", "c"]], [], none, true, 3, accTokens⟩)) ∧
    (parse_acc ["a", "b", "c"] = none) ∧
    ∃ res, FileDatasource.read 3 0 0 2 (startReading [["x", "y", "z"], ["a", "b", "c"]]
        [["longitude", "latitude"], ["1", "2"]])
      = some (res,
          ⟨⟨[["x", "y", "z"], ["a", "b", "c"]], [], none, true, 3, accTokens⟩,
           ⟨[["longitude", "latitude"], ["1", "2"]], [], none, true, 2, gpsTokens⟩⟩) ∧
      (parse_acc ["a", "b", "c"] = none → res = .malformedRow) :=
  ⟨by decide, by decide,
    fetch_both_before_parse 3 0 0 2
      (startReading [["x", "y", "z"], ["a", "b", "c"]]
        [["longitude", "latitude"], ["1", "2"]])
      ["a", "b", "c"] ["1", "2"]
      ⟨[["x", "y", "z"], ["a", "b", "c"]], [], none, true, 3, accTokens⟩
      ⟨[["longitude", "latitude"], ["1", "2"]], [], none, true, 2, gpsTokens⟩
      (by decide) (by decide)⟩

/-! ### C5: periodicity of the replay stream

The cycle lemmas below track the cursor along one pass over a file's
data rows: `midCursor j` is the cursor just after delivering data row
`j` (buffer empty, `j` rows consumed).  Delivering from `midCursor
dataRows.length` rewinds and wraps to the first data row, so the
delivered-row sequence is periodic with the number of data rows as
period. -/

/-- A well-formed data row for a file with `cols` required columns:
already stripped, lowercase-invariant (as numeric text is), not blank,
with at least `cols` cells, the first `cols` of which are numeric. -/
@[reducible] def GoodRow (cols : Nat) (r : List String) : Prop :=
  stripRow r = r ∧ r.map lowerStr = r ∧ blankRow r = false ∧
  cols ≤ r.length ∧ ∀ i, i < cols → is_number (r.getD i "") = true

/-- The cursor over `file` whose data rows are `dataRows`, positioned
just after delivering data row `j` (0-indexed; buffer empty). -/
def midCursor (file dataRows : List (List String)) (cols : Nat)
    (toks : List String) (hb : Bool) (j : Nat) : Cursor :=
  ⟨file, dataRows.drop j, none, hb, cols, toks⟩

theorem getD_mem (l : List (List String)) (j : Nat) (hj : j < l.length) :
    l.getD j [] ∈ l := by
  induction l generalizing j with
  | nil => simp at hj
  | cons a t ih =>
    cases j with
    | zero => exact List.mem_cons_self a t
    | succ m => exact List.mem_cons_of_mem a (ih m (by simpa using hj))

theorem cons_getD_zero (l : List (List String)) (h : 0 < l.length) :
    l = l.getD 0 [] :: l.tail := by
  cases l with
  | nil => simp at h
  | cons a t => rfl

theorem drop_eq_getD_cons (l : List (List String)) (j : Nat) (hj : j < l.length) :
    l.drop j = l.getD j [] :: l.drop (j + 1) := by
  induction l generalizing j with
  | nil => simp at hj
  | cons a t ih =>
    cases j with
    | zero => rfl
    | succ m => simpa using ih m (by simpa using hj)

theorem all_take_of_getD (p : String → Bool) (l : List String) (n : Nat)
    (hn : n ≤ l.length) (h : ∀ i, i < n → p (l.getD i "") = true) :
    (l.take n).all p = true := by
  induction l generalizing n with
  | nil => simp
  | cons a t ih =>
    cases n with
    | zero => simp
    | succ m =>
      rw [List.take_succ_cons, List.all_cons, Bool.and_eq_true]
      exact ⟨h 0 (by omega), ih m (by simpa using hn) (fun i hi => h (i + 1) (by omega))⟩

theorem blankRow_false_of_mem (r : List String) (c : String) (hc : c ∈ r)
    (hne : c ≠ "") : blankRow r = false := by
  rcases r with _ | ⟨a, t⟩
  · simp at hc
  · unfold blankRow
    simp only [List.isEmpty_cons, Bool.false_or]
    rw [Bool.eq_false_iff]
    intro hb
    rw [List.all_eq_true] at hb
    have := hb c hc
    rw [beq_iff_eq] at this
    exact hne this

theorem parse_acc_of_good (r : List String) (hr : GoodRow 3 r) :
    ∃ a, parse_acc r = some a := by
  obtain ⟨-, -, -, hlen, hnum⟩ := hr
  have h0 := hnum 0 (by norm_num)
  have h1 := hnum 1 (by norm_num)
  have h2 := hnum 2 (by norm_num)
  unfold is_number at h0 h1 h2
  obtain ⟨p0, hp0⟩ := Option.isSome_iff_exists.mp h0
  obtain ⟨p1, hp1⟩ := Option.isSome_iff_exists.mp h1
  obtain ⟨p2, hp2⟩ := Option.isSome_iff_exists.mp h2
  unfold parse_acc
  rw [if_neg (by omega), hp0, hp1, hp2]
  exact ⟨_, rfl⟩

theorem parse_gps_of_good (r : List String) (hr : GoodRow 2 r) :
    ∃ g, parse_gps r = some g := by
  obtain ⟨-, -, -, hlen, hnum⟩ := hr
  have h0 := hnum 0 (by norm_num)
  have h1 := hnum 1 (by norm_num)
  unfold is_number at h0 h1
  obtain ⟨p0, hp0⟩ := Option.isSome_iff_exists.mp h0
  obtain ⟨p1, hp1⟩ := Option.isSome_iff_exists.mp h1
  unfold parse_gps
  rw [if_neg (by omega), hp0, hp1]
  exact ⟨_, rfl⟩

/-- Delivering from mid-file: the next data row comes straight off the
reader. -/
theorem next_row_mid_lt (file dataRows : List (List String)) (cols : Nat)
    (toks : List String) (hb : Bool) (fuel j : Nat)
    (hrows : ∀ r ∈ dataRows, stripRow r = r ∧ blankRow r = false)
    (hj : j < dataRows.length) :
    next_row (fuel + 1) (midCursor file dataRows cols toks hb j)
      = some (dataRows.getD j [], midCursor file dataRows cols toks hb (j + 1)) := by
  obtain ⟨hstrip, hblank⟩ := hrows _ (getD_mem dataRows j hj)
  rw [next_row]
  dsimp only [midCursor]
  rw [drop_eq_getD_cons dataRows j hj]
  dsimp only
  rw [hstrip, hblank]
  rw [if_neg (by simp)]

/-- Delivering from the end of the file: rewind, re-open, and deliver
the first data row. -/
theorem next_row_mid_last (file dataRows : List (List String)) (cols : Nat)
    (toks : List String) (hb : Bool)
    (hopen : ∀ f, next_row (f + 1) (openCursor file cols toks)
        = some (dataRows.getD 0 [], midCursor file dataRows cols toks hb 1))
    (fuel : Nat) :
    next_row (fuel + 1 + 1) (midCursor file dataRows cols toks hb dataRows.length)
      = some (dataRows.getD 0 [], midCursor file dataRows cols toks hb 1) := by
  rw [next_row]
  dsimp only [midCursor]
  rw [List.drop_length]
  exact hopen fuel

/-- Opening a file whose first row carries all the header tokens:
header discarded, nothing buffered. -/
theorem openCursor_header (hdr : List String) (rows2 : List (List String))
    (cols : Nat) (toks : List String)
    (htok : ∀ t ∈ toks, t ∈ (stripRow hdr).map lowerStr)
    (hne : ∃ t, t ∈ toks ∧ t ≠ "") :
    openCursor (hdr :: rows2) cols toks
      = ⟨hdr :: rows2, rows2, none, true, cols, toks⟩ := by
  obtain ⟨t, ht, htne⟩ := hne
  obtain ⟨c, hc, hlc⟩ := List.mem_map.mp (htok t ht)
  have hcne : c ≠ "" := by
    intro he
    apply htne
    rw [← hlc, he]
    rfl
  have hblank : blankRow (stripRow hdr) = false :=
    blankRow_false_of_mem _ c hc hcne
  have hfb : firstNonBlank (hdr :: rows2) = some (stripRow hdr, rows2) := by
    unfold firstNonBlank
    dsimp only
    rw [hblank]
    simp
  have hb1 : (toks.all fun tok => ((stripRow hdr).map lowerStr).contains tok) = true := by
    rw [List.all_eq_true]
    intro t2 ht2
    simpa using htok t2 ht2
  unfold openCursor
  simp only [detect_header_and_buffer, hfb, hb1]
  simp

/-- Opening a headerless file whose first row is a good data row not
matching the tokens: the row is buffered. -/
theorem openCursor_headless (r0 : List String) (rows2 : List (List String))
    (cols : Nat) (toks : List String) (hr : GoodRow cols r0)
    (htok : ¬ ∀ t ∈ toks, t ∈ r0.map lowerStr) :
    openCursor (r0 :: rows2) cols toks
      = ⟨r0 :: rows2, rows2, some r0, false, cols, toks⟩ := by
  obtain ⟨hstrip, hlower, hblank, hlen, hnum⟩ := hr
  have hfb : firstNonBlank (r0 :: rows2) = some (r0, rows2) := by
    unfold firstNonBlank
    dsimp only
    rw [hstrip, hblank]
    simp
  have hb1 : (toks.all fun tok => (r0.map lowerStr).contains tok) = false := by
    rw [Bool.eq_false_iff]
    intro hc
    rw [List.all_eq_true] at hc
    exact htok fun t ht => by simpa using hc t ht
  have hb2 : decide (cols ≤ (r0.map lowerStr).length) = true := by
    simp [List.length_map, hlen]
  have hb3 : ((r0.map lowerStr).take cols).all is_number = true := by
    rw [hlower]
    exact all_take_of_getD is_number r0 cols hlen hnum
  unfold openCursor
  simp only [detect_header_and_buffer, hfb, hb1, hb2, hb3]
  simp

/-- The two supported file shapes of C5: a header row carrying all the
tokens followed by the data rows, or the bare data rows (whose first
row does not carry all the tokens and is hence buffered as data). -/
def HShape (file dataRows : List (List String)) (toks : List String)
    (hb : Bool) : Prop :=
  (hb = true ∧ ∃ hdr, file = hdr :: dataRows ∧ ∀ t ∈ toks, t ∈ (stripRow hdr).map lowerStr)
  ∨ (hb = false ∧ file = dataRows ∧ ¬ ∀ t ∈ toks, t ∈ (dataRows.getD 0 []).map lowerStr)

/-- In both file shapes, opening the file and fetching once delivers
the first data row and leaves the cursor at `midCursor 1`. -/
theorem hopen_of_shape (file dataRows : List (List String)) (cols : Nat)
    (toks : List String) (hb : Bool)
    (hgood : ∀ r ∈ dataRows, GoodRow cols r) (hA : 0 < dataRows.length)
    (hne : ∃ t, t ∈ toks ∧ t ≠ "")
    (hshape : HShape file dataRows toks hb) (f : Nat) :
    next_row (f + 1) (openCursor file cols toks)
      = some (dataRows.getD 0 [], midCursor file dataRows cols toks hb 1) := by
  have hrows : ∀ r ∈ dataRows, stripRow r = r ∧ blankRow r = false :=
    fun r hr => ⟨(hgood r hr).1, (hgood r hr).2.2.1⟩
  rcases hshape with ⟨hb1, hdr, hfile, htok⟩ | ⟨hb0, hfile, htok⟩
  · subst hb1
    subst hfile
    rw [openCursor_header hdr dataRows cols toks htok hne]
    exact next_row_mid_lt (hdr :: dataRows) dataRows cols toks true f 0 hrows hA
  · subst hb0
    obtain ⟨r0, rest, hsplit⟩ : ∃ r0 rest, dataRows = r0 :: rest := by
      rcases dataRows with _ | ⟨a, t⟩
      · simp at hA
      · exact ⟨a, t, rfl⟩
    subst hsplit
    subst hfile
    obtain ⟨hstrip, -, hblank, -, -⟩ := hgood r0 (List.mem_cons_self r0 rest)
    rw [openCursor_headless r0 rest cols toks (hgood r0 (List.mem_cons_self r0 rest)) htok]
    rw [next_row]
    dsimp only
    rw [hstrip, hblank]
    rw [if_neg (by simp)]
    rfl

/-- One delivery from any in-cycle position `1 ≤ j ≤ dataRows.length`:
row `j mod period` comes out and the cursor moves to the next
position. -/
theorem next_row_mid_step (file dataRows : List (List String)) (cols : Nat)
    (toks : List String) (hb : Bool)
    (hrows : ∀ r ∈ dataRows, stripRow r = r ∧ blankRow r = false)
    (hA : 0 < dataRows.length)
    (hopen : ∀ f, next_row (f + 1) (openCursor file cols toks)
        = some (dataRows.getD 0 [], midCursor file dataRows cols toks hb 1))
    (j : Nat) (hj1 : 1 ≤ j) (hjA : j ≤ dataRows.length) :
    next_row 2 (midCursor file dataRows cols toks hb j)
      = some (dataRows.getD (j % dataRows.length) [],
          midCursor file dataRows cols toks hb ((j % dataRows.length) + 1)) := by
  rcases eq_or_lt_of_le hjA with he | hlt
  · subst he
    rw [Nat.mod_self]
    exact next_row_mid_last file dataRows cols toks hb hopen 0
  · rw [Nat.mod_eq_of_lt hlt]
    exact next_row_mid_lt file dataRows cols toks hb 1 j hrows hlt

/-- Iterated delivery from any in-cycle position: the k-th delivered
row afterwards is data row `(j + k) mod period`. -/
theorem iterDeliver_mid (file dataRows : List (List String)) (cols : Nat)
    (toks : List String) (hb : Bool)
    (hrows : ∀ r ∈ dataRows, stripRow r = r ∧ blankRow r = false)
    (hA : 0 < dataRows.length)
    (hopen : ∀ f, next_row (f + 1) (openCursor file cols toks)
        = some (dataRows.getD 0 [], midCursor file dataRows cols toks hb 1)) :
    ∀ k j, 1 ≤ j → j ≤ dataRows.length →
      iterDeliver 2 k (midCursor file dataRows cols toks hb j)
        = some (dataRows.getD ((j + k) % dataRows.length) [],
            midCursor file dataRows cols toks hb (((j + k) % dataRows.length) + 1)) := by
  intro k
  induction k with
  | zero =>
    intro j hj1 hjA
    rw [iterDeliver, next_row_mid_step file dataRows cols toks hb hrows hA hopen j hj1 hjA]
    simp
  | succ k ih =>
    intro j hj1 hjA
    rw [iterDeliver, next_row_mid_step file dataRows cols toks hb hrows hA hopen j hj1 hjA]
    dsimp only
    have hjb : (j % dataRows.length) + 1 ≤ dataRows.length := by
      have := Nat.mod_lt j hA
      omega
    rw [ih ((j % dataRows.length) + 1) (by omega) hjb]
    have hidx : (j % dataRows.length + 1 + k) % dataRows.length
        = (j + (k + 1)) % dataRows.length := by
      rw [Nat.add_assoc, Nat.mod_add_mod]
      congr 1
      omega
    rw [hidx]

/-- Iterated delivery from the freshly opened cursor: the k-th
delivered row (0-indexed) is data row `k mod period`. -/
theorem iterDeliver_start (file dataRows : List (List String)) (cols : Nat)
    (toks : List String) (hb : Bool)
    (hrows : ∀ r ∈ dataRows, stripRow r = r ∧ blankRow r = false)
    (hA : 0 < dataRows.length)
    (hopen : ∀ f, next_row (f + 1) (openCursor file cols toks)
        = some (dataRows.getD 0 [], midCursor file dataRows cols toks hb 1))
    (k : Nat) :
    iterDeliver 2 k (openCursor file cols toks)
      = some (dataRows.getD (k % dataRows.length) [],
          midCursor file dataRows cols toks hb ((k % dataRows.length) + 1)) := by
  have h2 : next_row 2 (openCursor file cols toks)
      = some (dataRows.getD 0 [], midCursor file dataRows cols toks hb 1) := hopen 1
  cases k with
  | zero =>
    rw [iterDeliver, h2, Nat.zero_mod]
  | succ k =>
    rw [iterDeliver, h2]
    dsimp only
    rw [iterDeliver_mid file dataRows cols toks hb hrows hA hopen k 1 (le_refl 1) hA]
    have hidx : (1 + k) % dataRows.length = (k + 1) % dataRows.length := by
      rw [Nat.add_comm]
    rw [hidx]

/-- One `read()` from any in-cycle pair of positions: both cursors
advance one delivery and the call returns a reading. -/
theorem read_mid_step (delay clock uid : Nat)
    (accFile accData gpsFile gpsData : List (List String)) (hbA hbG : Bool)
    (hgoodA : ∀ r ∈ accData, GoodRow 3 r) (hA : 0 < accData.length)
    (hgoodG : ∀ r ∈ gpsData, GoodRow 2 r) (hG : 0 < gpsData.length)
    (hopenA : ∀ f, next_row (f + 1) (openCursor accFile 3 accTokens)
        = some (accData.getD 0 [], midCursor accFile accData 3 accTokens hbA 1))
    (hopenG : ∀ f, next_row (f + 1) (openCursor gpsFile 2 gpsTokens)
        = some (gpsData.getD 0 [], midCursor gpsFile gpsData 2 gpsTokens hbG 1))
    (ja jg : Nat) (h1 : 1 ≤ ja) (h2 : ja ≤ accData.length)
    (h3 : 1 ≤ jg) (h4 : jg ≤ gpsData.length) :
    ∃ rr, FileDatasource.read delay clock uid 2
        ⟨midCursor accFile accData 3 accTokens hbA ja,
         midCursor gpsFile gpsData 2 gpsTokens hbG jg⟩
      = some (.ok rr,
          ⟨midCursor accFile accData 3 accTokens hbA ((ja % accData.length) + 1),
           midCursor gpsFile gpsData 2 gpsTokens hbG ((jg % gpsData.length) + 1)⟩) := by
  have hrowsA : ∀ r ∈ accData, stripRow r = r ∧ blankRow r = false :=
    fun r hr => ⟨(hgoodA r hr).1, (hgoodA r hr).2.2.1⟩
  have hrowsG : ∀ r ∈ gpsData, stripRow r = r ∧ blankRow r = false :=
    fun r hr => ⟨(hgoodG r hr).1, (hgoodG r hr).2.2.1⟩
  obtain ⟨a, hpa⟩ := parse_acc_of_good _ (hgoodA _ (getD_mem _ _ (Nat.mod_lt _ hA)))
  obtain ⟨g, hpg⟩ := parse_gps_of_good _ (hgoodG _ (getD_mem _ _ (Nat.mod_lt _ hG)))
  unfold FileDatasource.read
  dsimp only
  rw [next_row_mid_step accFile accData 3 accTokens hbA hrowsA hA hopenA ja h1 h2,
    next_row_mid_step gpsFile gpsData 2 gpsTokens hbG hrowsG hG hopenG jg h3 h4]
  dsimp only
  rw [hpa, hpg]
  exact ⟨_, rfl⟩

/-- Iterated `read()` from any in-cycle pair of positions always
returns a reading. -/
theorem readN_mid (delay clock uid : Nat)
    (accFile accData gpsFile gpsData : List (List String)) (hbA hbG : Bool)
    (hgoodA : ∀ r ∈ accData, GoodRow 3 r) (hA : 0 < accData.length)
    (hgoodG : ∀ r ∈ gpsData, GoodRow 2 r) (hG : 0 < gpsData.length)
    (hopenA : ∀ f, next_row (f + 1) (openCursor accFile 3 accTokens)
        = some (accData.getD 0 [], midCursor accFile accData 3 accTokens hbA 1))
    (hopenG : ∀ f, next_row (f + 1) (openCursor gpsFile 2 gpsTokens)
        = some (gpsData.getD 0 [], midCursor gpsFile gpsData 2 gpsTokens hbG 1)) :
    ∀ k ja jg, 1 ≤ ja → ja ≤ accData.length → 1 ≤ jg → jg ≤ gpsData.length →
      ∃ rr s1, readN delay clock uid 2 k
          ⟨midCursor accFile accData 3 accTokens hbA ja,
           midCursor gpsFile gpsData 2 gpsTokens hbG jg⟩
        = some (.ok rr, s1) := by
  intro k
  induction k with
  | zero =>
    intro ja jg h1 h2 h3 h4
    obtain ⟨rr, hr⟩ := read_mid_step delay clock uid accFile accData gpsFile gpsData hbA hbG
      hgoodA hA hgoodG hG hopenA hopenG ja jg h1 h2 h3 h4
    rw [readN, hr]
    exact ⟨rr, _, rfl⟩
  | succ k ih =>
    intro ja jg h1 h2 h3 h4
    obtain ⟨rr, hr⟩ := read_mid_step delay clock uid accFile accData gpsFile gpsData hbA hbG
      hgoodA hA hgoodG hG hopenA hopenG ja jg h1 h2 h3 h4
    rw [readN, hr]
    dsimp only
    exact ih ((ja % accData.length) + 1) ((jg % gpsData.length) + 1)
      (by omega) (by have := Nat.mod_lt ja hA; omega)
      (by omega) (by have := Nat.mod_lt jg hG; omega)

/-- Iterated `read()` from the started datasource always returns a
reading: the combined stream never terminates. -/
theorem readN_start (delay clock uid : Nat)
    (accFile accData gpsFile gpsData : List (List String)) (hbA hbG : Bool)
    (hgoodA : ∀ r ∈ accData, GoodRow 3 r) (hA : 0 < accData.length)
    (hgoodG : ∀ r ∈ gpsData, GoodRow 2 r) (hG : 0 < gpsData.length)
    (hopenA : ∀ f, next_row (f + 1) (openCursor accFile 3 accTokens)
        = some (accData.getD 0 [], midCursor accFile accData 3 accTokens hbA 1))
    (hopenG : ∀ f, next_row (f + 1) (openCursor gpsFile 2 gpsTokens)
        = some (gpsData.getD 0 [], midCursor gpsFile gpsData 2 gpsTokens hbG 1))
    (k : Nat) :
    ∃ rr s1, readN delay clock uid 2 k
        ⟨openCursor accFile 3 accTokens, openCursor gpsFile 2 gpsTokens⟩
      = some (.ok rr, s1) := by
  have h2A : next_row 2 (openCursor accFile 3 accTokens)
      = some (accData.getD 0 [], midCursor accFile accData 3 accTokens hbA 1) := hopenA 1
  have h2G : next_row 2 (openCursor gpsFile 2 gpsTokens)
      = some (gpsData.getD 0 [], midCursor gpsFile gpsData 2 gpsTokens hbG 1) := hopenG 1
  obtain ⟨a, hpa⟩ := parse_acc_of_good _ (hgoodA _ (getD_mem _ 0 hA))
  obtain ⟨g, hpg⟩ := parse_gps_of_good _ (hgoodG _ (getD_mem _ 0 hG))
  have hread : FileDatasource.read delay clock uid 2
      ⟨openCursor accFile 3 accTokens, openCursor gpsFile 2 gpsTokens⟩
    = some (.ok ⟨a, g, if 0 < delay then clock + delay else clock, uid⟩,
        ⟨midCursor accFile accData 3 accTokens hbA 1,
         midCursor gpsFile gpsData 2 gpsTokens hbG 1⟩) := by
    unfold FileDatasource.read
    dsimp only
    rw [h2A, h2G]
    dsimp only
    rw [hpa, hpg]
  cases k with
  | zero =>
    rw [readN, hread]
    exact ⟨_, _, rfl⟩
  | succ k =>
    rw [readN, hread]
    dsimp only
    exact readN_mid delay clock uid accFile accData gpsFile gpsData hbA hbG hgoodA hA hgoodG hG
      hopenA hopenG k 1 1 (le_refl 1) hA (le_refl 1) hG

/-- C5: over an accelerometer file with A ≥ 1 well-formed data rows and
a GPS file with G ≥ 1 well-formed data rows (with or without header
row), each per-file cursor of the started datasource is periodic with
its own period: the k-th delivered accelerometer row is data row
`k mod A` (so the (A+1)-th delivery repeats the first), likewise for
GPS with period G; every `read()` call returns an AggregatedReading,
so the combined stream never terminates; and the combined
(accelerometer, GPS) row-pair sequence repeats with period
`lcm A G`. -/
theorem replay_periodic (accFile gpsFile accData gpsData : List (List String))
    (hbA hbG : Bool)
    (hgoodA : ∀ r ∈ accData, GoodRow 3 r) (hA : 0 < accData.length)
    (hgoodG : ∀ r ∈ gpsData, GoodRow 2 r) (hG : 0 < gpsData.length)
    (hshapeA : HShape accFile accData accTokens hbA)
    (hshapeG : HShape gpsFile gpsData gpsTokens hbG)
    (delay clock uid : Nat) :
    (∀ k, (iterDeliver 2 k (startReading accFile gpsFile).acc).map Prod.fst
        = some (accData.getD (k % accData.length) [])) ∧
    (∀ k, (iterDeliver 2 k (startReading accFile gpsFile).gps).map Prod.fst
        = some (gpsData.getD (k % gpsData.length) [])) ∧
    (∀ k, ∃ rr s1, readN delay clock uid 2 k (startReading accFile gpsFile)
        = some (.ok rr, s1)) ∧
    (∀ k,
      ((iterDeliver 2 (k + Nat.lcm accData.length gpsData.length)
          (startReading accFile gpsFile).acc).map Prod.fst,
       (iterDeliver 2 (k + Nat.lcm accData.length gpsData.length)
          (startReading accFile gpsFile).gps).map Prod.fst)
        = ((iterDeliver 2 k (startReading accFile gpsFile).acc).map Prod.fst,
           (iterDeliver 2 k (startReading accFile gpsFile).gps).map Prod.fst)) := by
  have hneA : ∃ t, t ∈ accTokens ∧ t ≠ "" := ⟨"x", by decide, by decide⟩
  have hneG : ∃ t, t ∈ gpsTokens ∧ t ≠ "" := ⟨"longitude", by decide, by decide⟩
  have hopenA := hopen_of_shape accFile accData 3 accTokens hbA hgoodA hA hneA hshapeA
  have hopenG := hopen_of_shape gpsFile gpsData 2 gpsTokens hbG hgoodG hG hneG hshapeG
  have hrowsA : ∀ r ∈ accData, stripRow r = r ∧ blankRow r = false :=
    fun r hr => ⟨(hgoodA r hr).1, (hgoodA r hr).2.2.1⟩
  have hrowsG : ∀ r ∈ gpsData, stripRow r = r ∧ blankRow r = false :=
    fun r hr => ⟨(hgoodG r hr).1, (hgoodG r hr).2.2.1⟩
  refine ⟨?_, ?_, ?_, ?_⟩
  · intro k
    dsimp only [startReading]
    rw [iterDeliver_start accFile accData 3 accTokens hbA hrowsA hA hopenA k]
    rfl
  · intro k
    dsimp only [startReading]
    rw [iterDeliver_start gpsFile gpsData 2 gpsTokens hbG hrowsG hG hopenG k]
    rfl
  · intro k
    dsimp only [startReading]
    exact readN_start delay clock uid accFile accData gpsFile gpsData hbA hbG
      hgoodA hA hgoodG hG hopenA hopenG k
  · intro k
    dsimp only [startReading]
    rw [iterDeliver_start accFile accData 3 accTokens hbA hrowsA hA hopenA
        (k + Nat.lcm accData.length gpsData.length),
      iterDeliver_start gpsFile gpsData 2 gpsTokens hbG hrowsG hG hopenG
        (k + Nat.lcm accData.length gpsData.length),
      iterDeliver_start accFile accData 3 accTokens hbA hrowsA hA hopenA k,
      iterDeliver_start gpsFile gpsData 2 gpsTokens hbG hrowsG hG hopenG k]
    have e1 : (k + Nat.lcm accData.length gpsData.length) % accData.length
        = k % accData.length := by
      obtain ⟨c, hc⟩ := Nat.dvd_lcm_left accData.length gpsData.length
      rw [hc, Nat.add_mul_mod_self_left]
    have e2 : (k + Nat.lcm accData.length gpsData.length) % gpsData.length
        = k % gpsData.length := by
      obtain ⟨c, hc⟩ := Nat.dvd_lcm_right accData.length gpsData.length
      rw [hc, Nat.add_mul_mod_self_left]
    rw [e1, e2]

theorem replay_periodic_witness :
    ((iterDeliver 2 0 (startReading
        [["x", "y", "z"], ["1", "2", "3"], ["4", "5", "6"], ["7", "8", "9"]]
        [["longitude", "latitude"], ["10", "20"], ["30", "40"], ["50", "60"],
          ["70", "80"], ["90", "100"]]).acc).map Prod.fst = some ["1", "2", "3"]) ∧
    ((iterDeliver 2 3 (startReading
        [["x", "y", "z"], ["1", "2", "3"], ["4", "5", "6"], ["7", "8", "9"]]
        [["longitude", "latitude"], ["10", "20"], ["30", "40"], ["50", "60"],
          ["70", "80"], ["90", "100"]]).acc).map Prod.fst = some ["1", "2", "3"]) ∧
    ((iterDeliver 2 5 (startReading
        [["x", "y", "z"], ["1", "2", "3"], ["4", "5", "6"], ["7", "8", "9"]]
        [["longitude", "latitude"], ["10", "20"], ["30", "40"], ["50", "60"],
          ["70", "80"], ["90", "100"]]).gps).map Prod.fst = some ["10", "20"]) ∧
    (∃ rr s1, readN 0 0 0 2 14 (startReading
        [["x", "y", "z"], ["1", "2", "3"], ["4", "5", "6"], ["7", "8", "9"]]
        [["longitude", "latitude"], ["10", "20"], ["30", "40"], ["50", "60"],
          ["70", "80"], ["90", "100"]]) = some (.ok rr, s1)) ∧
    (((iterDeliver 2 15 (startReading
          [["x", "y", "z"], ["1", "2", "3"], ["4", "5", "6"], ["7", "8", "9"]]
          [["longitude", "latitude"], ["10", "20"], ["30", "40"], ["50", "60"],
            ["70", "80"], ["90", "100"]]).acc).map Prod.fst,
      (iterDeliver 2 15 (startReading
          [["x", "y", "z"], ["1", "2", "3"], ["4", "5", "6"], ["7", "8", "9"]]
          [["longitude", "latitude"], ["10", "20"], ["30", "40"], ["50", "60"],
            ["70", "80"], ["90", "100"]]).gps).map Prod.fst)
      = ((iterDeliver 2 0 (startReading
          [["x", "y", "z"], ["1", "2", "3"], ["4", "5", "6"], ["7", "8", "9"]]
          [["longitude", "latitude"], ["10", "20"], ["30", "40"], ["50", "60"],
            ["70", "80"], ["90", "100"]]).acc).map Prod.fst,
        (iterDeliver 2 0 (startReading
          [["x", "y", "z"], ["1", "2", "3"], ["4", "5", "6"], ["7", "8", "9"]]
          [["longitude", "latitude"], ["10", "20"], ["30", "40"], ["50", "60"],
            ["70", "80"], ["90", "100"]]).gps).map Prod.fst)) ∧
    ((List.range 15).map (fun k =>
        ((iterDeliver 2 k (startReading
            [["x", "y", "z"], ["1", "2", "3"], ["4", "5", "6"], ["7", "8", "9"]]
            [["longitude", "latitude"], ["10", "20"], ["30", "40"], ["50", "60"],
              ["70", "80"], ["90", "100"]]).acc).map Prod.fst,
         (iterDeliver 2 k (startReading
            [["x", "y", "z"], ["1", "2", "3"], ["4", "5", "6"], ["7", "8", "9"]]
            [["longitude", "latitude"], ["10", "20"], ["30", "40"], ["50", "60"],
              ["70", "80"], ["90", "100"]]).gps).map Prod.fst))).Nodup := by
  have R := replay_periodic
    [["x", "y", "z"], ["1", "2", "3"], ["4", "5", "6"], ["7", "8", "9"]]
    [["longitude", "latitude"], ["10", "20"], ["30", "40"], ["50", "60"],
      ["70", "80"], ["90", "100"]]
    [["1", "2", "3"], ["4", "5", "6"], ["7", "8", "9"]]
    [["10", "20"], ["30", "40"], ["50", "60"], ["70", "80"], ["90", "100"]]
    true true (by decide) (by decide) (by decide) (by decide)
    (Or.inl ⟨rfl, ["x", "y", "z"], rfl, by decide⟩)
    (Or.inl ⟨rfl, ["longitude", "latitude"], rfl, by decide⟩) 0 0 0
  exact ⟨R.1 0, R.1 3, R.2.1 5, R.2.2.1 14, R.2.2.2 0, by decide⟩
